import Mathlib

set_option maxRecDepth 10000


/-!
Verification development for the zelle-style payment server.

The JavaScript modules under `server/` are shallowly embedded as pure Lean
functions over explicit state values:

* `server/services/emailService.js` — verification codes, rate limiting and
  the retrying delivery pipeline (`EmailState`, `sendEmailWithRetry`,
  `retryFailedEmail`, `checkRateLimit`, `sendVerificationCode`, `verifyCode`);
* `server/routes/transactions.js` — the send / request / history / get
  handlers over the in-memory `users` and `transactions` maps;
* `server/routes/auth.js` — the registration handler;
* `server/utils/codeGenerator.js` — `generateVerificationCode`.

JavaScript numbers are IEEE-754 binary64 values.  Every finite binary64
value is an integer multiple of `2^(-1074)`, so we represent a number as
that integer multiple (type `F64 := ℤ`, value `k · 2^(-1074)`); the
representation is injective, and order and equality of values coincide with
order and equality of the representing integers.  A JavaScript arithmetic
operation computes the exact result and rounds it to 53 significant bits
(round to nearest, ties to even): `fl` below performs exactly that rounding
on the fixed-point grid, and `jsAdd` / `jsSub` are JavaScript `+` / `-`
(the exact sum or difference of two grid values is again a grid value, so
no information is lost before rounding).  Overflow to infinity is outside
the model's domain; every quantity in this development is far below it.

External effects are injected as explicit parameters: the mail transport is
a function `ℕ → Option String` giving, for each attempt number, `none` on
success or the error message on failure; `Math.random()` for the
verification-code generator is a rational parameter in `[0, 1)`;
`Date.now()` is an integer parameter; generated email ids
(`Date.now()` plus a random suffix in the source) are modelled by a
fresh-id counter carried in the state.
-/

namespace Zelle

/-! ## Association maps

JavaScript `Map` objects keep insertion order; `set` on an existing key
replaces the value in place, otherwise appends.  We embed them as
association lists with exactly that behaviour. -/

variable {κ : Type} {α : Type}

/-- JavaScript `Map.get`: the value stored at `k`, if any. -/
def mget [DecidableEq κ] (m : List (κ × α)) (k : κ) : Option α :=
  match m with
  | [] => none
  | (k', v) :: rest => if k' = k then some v else mget rest k

/-- JavaScript `Map.set`: replace in place if the key is present, else append. -/
def mset [DecidableEq κ] (m : List (κ × α)) (k : κ) (v : α) : List (κ × α) :=
  match m with
  | [] => [(k, v)]
  | (k', v') :: rest =>
      if k' = k then (k, v) :: rest else (k', v') :: mset rest k v

/-- JavaScript `Map.delete`: drop the entry for `k`. -/
def mdel [DecidableEq κ] (m : List (κ × α)) (k : κ) : List (κ × α) :=
  match m with
  | [] => []
  | (k', v') :: rest => if k' = k then rest else (k', v') :: mdel rest k

/-- JavaScript `Map.has`. -/
def mhas [DecidableEq κ] (m : List (κ × α)) (k : κ) : Bool :=
  (mget m k).isSome

/-! ## IEEE-754 binary64 model (fixed-point representation) -/

/-- A JavaScript number: the integer `k` represents the value
`k · 2^(-1074)` (the finite binary64 grid). -/
abbrev F64 := ℤ

/-- Floor of `log₂ n` for `n ≥ 1`, by fuelled halving (fuel 2100 covers
every integer below `2^2100`, far beyond any value in this development). -/
def log2Aux : ℕ → ℕ → ℕ
  | 0, _ => 0
  | fuel + 1, n => if n ≤ 1 then 0 else log2Aux fuel (n / 2) + 1

/-- `⌊log₂ n⌋` (0 for `n = 0`). -/
def log2 (n : ℕ) : ℕ := log2Aux 2100 n

/-- Round a nonnegative grid value to 53 significant bits, ties to even.
A value below `2^53` grid units is exactly representable (this includes the
subnormal range, whose grid is exactly `2^(-1074)`); otherwise the
significand is cut at bit `E - 52` and rounded to nearest, ties to even. -/
def flPos (n : ℕ) : ℕ :=
  let E := log2 n
  if E ≤ 52 then n
  else
    let s := E - 52
    let q := n / 2 ^ s
    let r := n % 2 ^ s
    let half := 2 ^ (s - 1)
    let m := if r < half then q
             else if half < r then q + 1
             else if q % 2 = 0 then q else q + 1
    m * 2 ^ s

/-- Binary64 rounding (round to nearest, ties to even) of an exact
fixed-point value; negative values round symmetrically. -/
def fl (k : F64) : F64 :=
  if k < 0 then -(flPos (-k).toNat : ℤ) else (flPos k.toNat : ℤ)

/-- JavaScript `+` on numbers: exact sum, then binary64 rounding. -/
def jsAdd (a b : F64) : F64 := fl (a + b)

/-- JavaScript `-` on numbers: exact difference, then binary64 rounding. -/
def jsSub (a b : F64) : F64 := fl (a - b)

/-- The binary64 value of the decimal 10.10
(`5685794529555251 · 2^(-49)`, what a JavaScript client sending `10.10`
actually transmits). -/
def dec10_10 : F64 := ((5685794529555251 * 2 ^ 1025 : ℕ) : ℤ)

/-- The binary64 value of the decimal 0.20 (`3602879701896397 · 2^(-54)`). -/
def dec0_20 : F64 := ((3602879701896397 * 2 ^ 1020 : ℕ) : ℤ)

/-- The binary64 value of the decimal 10.30 (`2899192260119757 · 2^(-48)`):
what `10.10 + 0.20` would have to produce if the arithmetic were
decimal-exact. -/
def dec10_30 : F64 := ((2899192260119757 * 2 ^ 1026 : ℕ) : ℤ)

/-! ## Email service (`server/services/emailService.js`)

The `EmailService` instance state: verification codes, per-key rate-limit
timestamps, the failed-email store and the append-only log list.  The mail
transport (`sgMail.send`) is injected as `Mailer`: for each attempt number
(1-based) it gives `none` on success or the thrown error message on
failure. -/

/-- The outbound message payload.  Only the destination address is
modelled; subject and body are built from fixed templates that no modelled
operation ever inspects. -/
structure EmailData where
  «to» : String
deriving DecidableEq

/-- One entry of a log's `errors` array: attempt number, error message,
timestamp. -/
structure AttemptError where
  attempt : ℕ
  error : String
  timestamp : ℤ
deriving DecidableEq

/-- A delivery-attempt log entry (`logEntry` in `sendEmailWithRetry`). -/
structure LogEntry where
  id : ℕ
  «to» : String
  type : String
  timestamp : ℤ
  attempts : ℕ
  success : Bool
  errors : List AttemptError
  completedAt : Option ℤ
  failedAt : Option ℤ
deriving DecidableEq

/-- An entry of the `failedEmails` store: the terminal log spread together
with the original payload (`{ ...logEntry, emailData }`). -/
structure FailedEmail where
  log : LogEntry
  emailData : EmailData
deriving DecidableEq

/-- A stored verification code: code value, expiry instant, attempt
counter. -/
structure VerificationRecord where
  code : ℕ
  expiresAt : ℤ
  attempts : ℕ
deriving DecidableEq

/-- The mutable fields of the `EmailService` singleton, plus the fresh-id
counter modelling generated email ids. -/
structure EmailState where
  verificationCodes : List (String × VerificationRecord)
  rateLimits : List (String × List ℤ)
  failedEmails : List (ℕ × FailedEmail)
  emailLogs : List LogEntry
  nextId : ℕ
deriving DecidableEq

/-- The injected mail transport: attempt number ↦ `none` (success) or the
error message thrown by `sgMail.send`. -/
abbrev Mailer := ℕ → Option String

/-- The suspension in milliseconds before attempt `attempt`:
`Math.pow(2, attempt - 2) * 2000` when `attempt > 1`, and no suspension
before the first attempt (the guard `if (attempt > 1)` in
`sendEmailWithRetry`). -/
def backoffDelay (attempt : ℕ) : ℕ :=
  if attempt > 1 then 2 ^ (attempt - 2) * 2000 else 0

/-- The first attempt in `1..max` on which the transport succeeds. -/
def firstSuccess (mailer : Mailer) (max : ℕ) : Option ℕ :=
  ((List.range max).find? fun i => (mailer (i + 1)).isNone).map (· + 1)

/-- The error descriptors pushed for attempts `1..upTo` (each failing
attempt appends `{ attempt, error, timestamp }`). -/
def attemptErrors (mailer : Mailer) (now : ℤ) (upTo : ℕ) : List AttemptError :=
  (List.range upTo).filterMap fun i =>
    (mailer (i + 1)).map fun msg => ⟨i + 1, msg, now⟩

/-- Outcome of `sendEmailWithRetry`: the JS function returns
`{ success, emailId, attempts }` or throws
`Failed to send email after ... attempts: ...`. -/
inductive DeliveryResult where
  | ok (emailId : ℕ) (attempts : ℕ)
  | failed (message : String)
deriving DecidableEq

/-- Embeds `EmailService.sendEmailWithRetry` for `maxRetries ≥ 1`: allocate a fresh
id and try the transport up to `maxRetries` times.  On the first success the
log entry is marked successful and appended, and the *fresh* id is deleted
from the failed store (`this.failedEmails.delete(emailId)` — note the
source deletes the id generated by this very call).  If every attempt
fails, the terminal-failure log is appended, the payload is parked in
`failedEmails` under the fresh id, and the operation fails with the last
attempt's error message. -/
def sendEmailWithRetry (st : EmailState) (emailData : EmailData)
    (ty : String) (mailer : Mailer) (now : ℤ) (maxRetries : ℕ) :
    EmailState × DeliveryResult :=
  let emailId := st.nextId
  match firstSuccess mailer maxRetries with
  | some k =>
      let entry : LogEntry :=
        ⟨emailId, emailData.«to», ty, now, k, true,
         attemptErrors mailer now (k - 1), some now, none⟩
      ({ st with
          emailLogs := st.emailLogs ++ [entry]
          failedEmails := mdel st.failedEmails emailId
          nextId := st.nextId + 1 },
       .ok emailId k)
  | none =>
      let entry : LogEntry :=
        ⟨emailId, emailData.«to», ty, now, maxRetries, false,
         attemptErrors mailer now maxRetries, none, some now⟩
      ({ st with
          emailLogs := st.emailLogs ++ [entry]
          failedEmails := mset st.failedEmails emailId ⟨entry, emailData⟩
          nextId := st.nextId + 1 },
       .failed ("Failed to send email after " ++ toString maxRetries ++
                " attempts: " ++ (mailer maxRetries).getD ""))

/-- Outcome of `EmailService.retryFailedEmail`. -/
inductive RetryResult where
  | notFound
  | retrySucceeded (emailId : ℕ) (attempts : ℕ)
  | retryFailedAgain (message : String)
deriving DecidableEq

/-- Embeds `EmailService.retryFailedEmail`: look up the parked entry and re-run
`sendEmailWithRetry` on its stored payload and type (a fresh delivery
cycle under a fresh id). -/
def retryFailedEmail (st : EmailState) (emailId : ℕ) (mailer : Mailer)
    (now : ℤ) : EmailState × RetryResult :=
  match mget st.failedEmails emailId with
  | none => (st, .notFound)
  | some fe =>
      match sendEmailWithRetry st fe.emailData fe.log.type mailer now 3 with
      | (st1, .ok id att) => (st1, .retrySucceeded id att)
      | (st1, .failed msg) => (st1, .retryFailedAgain ("Retry failed: " ++ msg))

/-- Embeds `EmailService.checkRateLimit`: prune the key's timestamps to those
strictly newer than one hour ago, store the pruned list, refuse if 3 or
more remain, otherwise also record `now`.  `true` means admitted, `false`
means the JS function threw `Rate limit exceeded`. -/
def checkRateLimit (st : EmailState) (email ty : String) (now : ℤ) :
    EmailState × Bool :=
  let key := email ++ ":" ++ ty
  let hourAgo := now - 60 * 60 * 1000
  let attempts := (mget st.rateLimits key).getD []
  let recent := attempts.filter fun t => hourAgo < t
  if 3 ≤ recent.length then
    ({ st with rateLimits := mset st.rateLimits key recent }, false)
  else
    ({ st with rateLimits := mset st.rateLimits key (recent ++ [now]) }, true)

/-- Embeds `generateVerificationCode` from `utils/codeGenerator.js`:
`Math.floor(100000 + Math.random() * 900000).toString()`.  `Math.random()`
is modelled as an exact rational `r ∈ [0, 1)` (binary64 rounding of the two
arithmetic operations does not change the attainable integer range).  The
numeric value of the produced decimal string is returned; the string is its
plain decimal notation, with no padding in the source. -/
def generateVerificationCode (r : ℚ) : ℕ :=
  (⌊(100000 : ℚ) + r * 900000⌋).toNat

/-- Outcome of `EmailService.sendVerificationCode`. -/
inductive SendCodeResult where
  | rateLimited
  | deliveryFailed (message : String)
  | sent (expiresAt : ℤ) (emailId : ℕ)
deriving DecidableEq

/-- Embeds `EmailService.sendVerificationCode`: rate-limit gate (1-hour window,
ceiling 3, key `email:verification`), then generate a code, store the
record `{ code, expiresAt := now + 10 min, attempts := 0 }` (replacing any
prior record for that email), then deliver through `sendEmailWithRetry`;
a delivery failure propagates, leaving the stored record and the consumed
rate-limit slot in place. -/
def sendVerificationCode (st : EmailState) (email : String) (now : ℤ)
    (r : ℚ) (mailer : Mailer) : EmailState × SendCodeResult :=
  match checkRateLimit st email "verification" now with
  | (st1, false) => (st1, .rateLimited)
  | (st1, true) =>
      let code := generateVerificationCode r
      let expiresAt := now + 10 * 60 * 1000
      let codes2 := mset st1.verificationCodes email ⟨code, expiresAt, 0⟩
      let st2 := { st1 with verificationCodes := codes2 }
      match sendEmailWithRetry st2 ⟨email⟩ "verification" mailer now 3 with
      | (st3, .ok emailId _) => (st3, .sent expiresAt emailId)
      | (st3, .failed msg) => (st3, .deliveryFailed msg)

/-- Outcome of `EmailService.verifyCode`. -/
inductive VerifyResult where
  | notFound
  | expired
  | attemptsExhausted
  | invalidCode
  | verified
deriving DecidableEq

/-- Embeds `EmailService.verifyCode`: no record → `notFound`; past expiry → delete
and `expired`; attempt counter already at 3 → delete and
`attemptsExhausted`; wrong code → increment the counter (the stored record
survives) and `invalidCode`; right code → delete and `verified`. -/
def verifyCode (st : EmailState) (email : String) (inputCode : ℕ)
    (now : ℤ) : EmailState × VerifyResult :=
  match mget st.verificationCodes email with
  | none => (st, .notFound)
  | some stored =>
      if stored.expiresAt < now then
        ({ st with verificationCodes := mdel st.verificationCodes email },
         .expired)
      else if 3 ≤ stored.attempts then
        ({ st with verificationCodes := mdel st.verificationCodes email },
         .attemptsExhausted)
      else if stored.code ≠ inputCode then
        let bumped := { stored with attempts := stored.attempts + 1 }
        ({ st with verificationCodes := mset st.verificationCodes email bumped },
         .invalidCode)
      else
        ({ st with verificationCodes := mdel st.verificationCodes email },
         .verified)

/-! ## Accounts and transactions
(`server/routes/auth.js`, `server/routes/transactions.js`)

The in-memory `users` and `transactions` maps and the four transaction
route handlers.  Authentication middleware, JWT handling and HTTP framing
are outside the model: each handler takes the authenticated email directly.
Generated ids (`uuidv4`, `generateTransactionId`) are injected as
parameters; `bcrypt.hash` is injected as a function. -/

/-- A stored user object (created by the register handler). -/
structure User where
  id : String
  name : String
  email : String
  phone : String
  password : String
  verified : Bool
  balance : F64
  createdAt : ℤ
deriving DecidableEq

/-- A value of the `transactions` map.  Send records carry
`senderEmail/senderName/recipientEmail/recipientName`; request records
carry `requesterEmail/requesterName/requesteeEmail` instead.  A field a
record does not carry is JavaScript `undefined`, modelled as `none`. -/
structure Txn where
  id : String
  senderEmail : Option String
  senderName : Option String
  recipientEmail : Option String
  recipientName : Option String
  requesterEmail : Option String
  requesterName : Option String
  requesteeEmail : Option String
  amount : F64
  note : String
  timestamp : ℤ
  status : String
deriving DecidableEq

abbrev UserMap := List (String × User)

abbrev TxnMap := List (String × Txn)

/-- Embeds `email.split('@')[0]`. -/
def localPart (email : String) : String := (email.splitOn "@").headD ""

/-- Outcome of `POST /transactions/send` (in source order: the 400 for a
missing recipient or falsy amount, the 400 for a non-positive amount, the
404 for an unknown sender, the 403 `EMAIL_NOT_VERIFIED`, the 400
`Insufficient funds`, and the success payload). -/
inductive SendResult where
  | missingFields
  | invalidAmount
  | senderNotFound
  | emailNotVerified
  | insufficientFunds
  | ok (txn : Txn) (newBalance : F64)
deriving DecidableEq

/-- Everything the send handler leaves behind: the two stores, the email
service state and the HTTP outcome. -/
structure SendOutcome where
  users : UserMap
  txns : TxnMap
  emails : EmailState
  result : SendResult
deriving DecidableEq

/-- The `POST /transactions/send` handler.  `mailer1` / `mailer2` are the
transports of the sender-receipt and recipient-receipt deliveries.  After
the balance mutation and the transaction store, receipt delivery runs in a
`try` whose `catch` only logs: a failed sender receipt skips the recipient
receipt, and no email outcome affects the stores or the response.  When
the recipient email equals the sender email, `sender` and `recipient` are
the same JavaScript object, so the debit and credit hit the same balance
field in sequence. -/
def sendHandler (users : UserMap) (txns : TxnMap) (est : EmailState)
    (senderEmail recipientEmail : String) (amount : F64) (note : String)
    (txId : String) (now : ℤ) (mailer1 mailer2 : Mailer) : SendOutcome :=
  if recipientEmail = "" ∨ amount = 0 then ⟨users, txns, est, .missingFields⟩
  else if amount ≤ 0 then ⟨users, txns, est, .invalidAmount⟩
  else
    match mget users senderEmail with
    | none => ⟨users, txns, est, .senderNotFound⟩
    | some sender =>
        if ¬sender.verified then ⟨users, txns, est, .emailNotVerified⟩
        else if sender.balance < amount then
          ⟨users, txns, est, .insufficientFunds⟩
        else
          match mget users recipientEmail with
          | none =>
              let newBalance := jsSub sender.balance amount
              let txn : Txn := ⟨txId, some senderEmail, some sender.name,
                some recipientEmail, some (localPart recipientEmail),
                none, none, none, amount, note, now, "completed"⟩
              let users1 := mset users senderEmail
                { sender with balance := newBalance }
              let txns1 := mset txns txId txn
              let est1 :=
                (sendEmailWithRetry est ⟨senderEmail⟩ "receipt" mailer1 now 3).1
              ⟨users1, txns1, est1, .ok txn newBalance⟩
          | some recipient =>
              let txn : Txn := ⟨txId, some senderEmail, some sender.name,
                some recipientEmail, some recipient.name,
                none, none, none, amount, note, now, "completed"⟩
              let debited := jsSub sender.balance amount
              let selfFinal := jsAdd debited amount
              let credited := jsAdd recipient.balance amount
              let users1 :=
                if recipientEmail = senderEmail then
                  mset users senderEmail { sender with balance := selfFinal }
                else
                  mset (mset users senderEmail { sender with balance := debited })
                    recipientEmail { recipient with balance := credited }
              let newBalance :=
                if recipientEmail = senderEmail then selfFinal else debited
              let txns1 := mset txns txId txn
              let step1 := sendEmailWithRetry est ⟨senderEmail⟩ "receipt" mailer1 now 3
              let est2 :=
                match step1 with
                | (est1, .ok _ _) =>
                    (sendEmailWithRetry est1 ⟨recipientEmail⟩ "receipt" mailer2 now 3).1
                | (est1, .failed _) => est1
              ⟨users1, txns1, est2, .ok txn newBalance⟩

/-- Outcome of `POST /transactions/request`. -/
inductive RequestResult where
  | missingFields
  | invalidAmount
  | requesterNotFound
  | emailNotVerified
  | ok (txn : Txn)
deriving DecidableEq

/-- The `POST /transactions/request` handler: same validation and
verified-gate as send, no balance check and no balance mutation; stores a
`pending` record keyed by the generated request id.  Its email phase only
logs, so the email state is untouched. -/
def requestHandler (users : UserMap) (txns : TxnMap)
    (requesterEmail requesteeEmail : String) (amount : F64) (note : String)
    (reqId : String) (now : ℤ) : TxnMap × RequestResult :=
  if requesteeEmail = "" ∨ amount = 0 then (txns, .missingFields)
  else if amount ≤ 0 then (txns, .invalidAmount)
  else
    match mget users requesterEmail with
    | none => (txns, .requesterNotFound)
    | some requester =>
        if ¬requester.verified then (txns, .emailNotVerified)
        else
          let txn : Txn := ⟨reqId, none, none, none, none,
            some requesterEmail, some requester.name, some requesteeEmail,
            amount, note, now, "pending"⟩
          (mset txns reqId txn, .ok txn)

/-- One element of the history response: a transaction projected into the
requesting account's perspective. -/
structure TxnView where
  id : String
  type : String
  name : Option String
  email : Option String
  amount : F64
  note : String
  timestamp : ℤ
  status : String
deriving DecidableEq

/-- The per-user projection used by the history and detail handlers:
`received` when the user is the recipient, otherwise `sent`, with the
counterparty's name and email (which are `undefined` on request records). -/
def txnView (t : Txn) (userEmail : String) : TxnView :=
  if t.recipientEmail = some userEmail then
    ⟨t.id, "received", t.senderName, t.senderEmail,
     t.amount, t.note, t.timestamp, t.status⟩
  else
    ⟨t.id, "sent", t.recipientName, t.recipientEmail,
     t.amount, t.note, t.timestamp, t.status⟩

/-- Insert into a list already sorted by descending timestamp (the
comparator `new Date(b.timestamp) - new Date(a.timestamp)`). -/
def insertDesc (v : TxnView) : List TxnView → List TxnView
  | [] => [v]
  | w :: ws =>
      if w.timestamp < v.timestamp then v :: w :: ws else w :: insertDesc v ws

/-- Sort newest first. -/
def sortDesc (l : List TxnView) : List TxnView := l.foldr insertDesc []

/-- The `GET /transactions/history` handler: every stored transaction whose
`senderEmail` or `recipientEmail` equals the user's email (request records
carry neither field, so they never match), projected and sorted newest
first. -/
def historyHandler (txns : TxnMap) (userEmail : String) : List TxnView :=
  sortDesc ((txns.filter fun p =>
      p.2.senderEmail == some userEmail || p.2.recipientEmail == some userEmail).map
    fun p => txnView p.2 userEmail)

/-- Outcome of `GET /transactions/:transactionId`. -/
inductive GetResult where
  | notFound
  | accessDenied
  | ok (view : TxnView)
deriving DecidableEq

/-- The `GET /transactions/:transactionId` handler: 404 for an unknown id;
403 when the user is neither the record's `senderEmail` nor its
`recipientEmail`; otherwise the per-user projection. -/
def getTransactionHandler (txns : TxnMap) (txId userEmail : String) :
    GetResult :=
  match mget txns txId with
  | none => .notFound
  | some t =>
      if t.senderEmail ≠ some userEmail ∧ t.recipientEmail ≠ some userEmail
      then .accessDenied
      else .ok (txnView t userEmail)

/-- Outcome of `POST /auth/register`. -/
inductive RegisterResult where
  | missingFields
  | alreadyExists
  | weakPassword
  | registered (userId : String)
  | serverError (message : String)
deriving DecidableEq

/-- The `POST /auth/register` handler: validate, store the new user
(balance 0, unverified), then `await sendVerificationCode`.  Any throw from
the verification-code path (rate limit or permanent delivery failure)
surfaces as a 500 — after the user has already been stored. -/
def registerHandler (users : UserMap) (est : EmailState)
    (name email phone password : String) (hash : String → String)
    (uid : String) (now : ℤ) (r : ℚ) (mailer : Mailer) :
    UserMap × EmailState × RegisterResult :=
  if name = "" ∨ email = "" ∨ phone = "" ∨ password = "" then
    (users, est, .missingFields)
  else if mhas users email then (users, est, .alreadyExists)
  else if password.length < 8 then (users, est, .weakPassword)
  else
    let user : User := ⟨uid, name, email, phone, hash password, false, 0, now⟩
    let users1 := mset users email user
    match sendVerificationCode est email now r mailer with
    | (est1, .sent _ _) => (users1, est1, .registered uid)
    | (est1, .rateLimited) =>
        (users1, est1, .serverError
          "Rate limit exceeded. Please wait before requesting another code.")
    | (est1, .deliveryFailed msg) => (users1, est1, .serverError msg)

/-! ## Shared concrete fixtures -/

/-- A fresh `EmailService` instance (the constructor). -/
def emptyEmailState : EmailState := ⟨[], [], [], [], 0⟩

/-- The binary64 value 100 (integers this small are exactly
representable). -/
def dec100 : F64 := ((100 * 2 ^ 1074 : ℕ) : ℤ)

/-- A verified sender with balance 100. -/
def userA : User := ⟨"id-a", "A", "a@x", "1", "ha", true, dec100, 0⟩

/-- A verified recipient whose balance is the binary64 value of 10.10. -/
def userB : User := ⟨"id-b", "B", "b@x", "1", "hb", true, dec10_10, 0⟩

/-- A two-account store. -/
def usersAB : UserMap := [("a@x", userA), ("b@x", userB)]

/-- The transaction record produced by sending the binary64 value of 0.20
from `a@x` to `b@x` at time 0 under id `TX-1`. -/
def txnAB : Txn := ⟨"TX-1", some "a@x", some "A", some "b@x", some "B",
  none, none, none, dec0_20, "", 0, "completed"⟩

/-- The transaction record the send handler stores when the recipient is a
user: sender and recipient fields populated, request fields `undefined`,
status `completed`. -/
def completedTxn (txId senderEmail senderName recipientEmail recipientName :
    String) (amount : F64) (note : String) (now : ℤ) : Txn :=
  ⟨txId, some senderEmail, some senderName, some recipientEmail,
   some recipientName, none, none, none, amount, note, now, "completed"⟩

/-- The record the request handler stores: requester fields populated,
sender and recipient fields `undefined`, status `pending`. -/
def pendingTxn (reqId requesterEmail requesterName requesteeEmail : String)
    (amount : F64) (note : String) (now : ℤ) : Txn :=
  ⟨reqId, none, none, none, none, some requesterEmail, some requesterName,
   some requesteeEmail, amount, note, now, "pending"⟩

/-- An unverified account with ample balance (100). -/
def userU : User := ⟨"id-u", "U", "u@x", "1", "hu", false, dec100, 0⟩

/-- A store holding only the unverified account. -/
def usersU : UserMap := [("u@x", userU)]

/-- An email state holding one verification record for `u@x`:
code 111111, expiry instant 1000, attempt counter 0. -/
def estC6 : EmailState := ⟨[("u@x", ⟨111111, 1000, 0⟩)], [], [], [], 0⟩

/-- Convenience: an email state with its verification-code map replaced
(every other field kept). -/
def setCodes (st : EmailState) (vc : List (String × VerificationRecord)) :
    EmailState :=
  { st with verificationCodes := vc }

/-- Convenience: an email state with its rate-limit map replaced
(every other field kept). -/
def setRateLimits (st : EmailState) (rl : List (String × List ℤ)) :
    EmailState :=
  { st with rateLimits := rl }

/-- The log entry `sendEmailWithRetry` appends when the transport first
succeeds on attempt `j` (errors recorded for the `j - 1` failed attempts
before it). -/
def okEntry (st : EmailState) (d : EmailData) (ty : String) (now : ℤ)
    (j : ℕ) (m : Mailer) : LogEntry :=
  ⟨st.nextId, d.«to», ty, now, j, true, attemptErrors m now (j - 1),
   some now, none⟩

/-- The terminal-failure log entry `sendEmailWithRetry` appends when all
`k` attempts fail. -/
def failEntry (st : EmailState) (d : EmailData) (ty : String) (now : ℤ)
    (k : ℕ) (m : Mailer) : LogEntry :=
  ⟨st.nextId, d.«to», ty, now, k, false, attemptErrors m now k, none,
   some now⟩

/-- The email state `sendEmailWithRetry` leaves behind on success at
attempt `j`: success log appended, the (dead) delete of the fresh id on the
failed store, fresh-id counter advanced. -/
def deliverOkState (st : EmailState) (d : EmailData) (ty : String)
    (now : ℤ) (j : ℕ) (m : Mailer) : EmailState :=
  { st with
      emailLogs := st.emailLogs ++ [okEntry st d ty now j m]
      failedEmails := mdel st.failedEmails st.nextId
      nextId := st.nextId + 1 }

/-- The email state `sendEmailWithRetry` leaves behind on permanent
failure after `k` attempts: failure log appended, payload parked under the
fresh id, fresh-id counter advanced. -/
def deliverFailState (st : EmailState) (d : EmailData) (ty : String)
    (now : ℤ) (k : ℕ) (m : Mailer) : EmailState :=
  { st with
      emailLogs := st.emailLogs ++ [failEntry st d ty now k m]
      failedEmails := mset st.failedEmails st.nextId ⟨failEntry st d ty now k m, d⟩
      nextId := st.nextId + 1 }

/-! ## Association-map lemmas -/

theorem mget_mset_self [DecidableEq κ] (m : List (κ × α)) (k : κ) (v : α) :
    mget (mset m k v) k = some v := by
  induction m with
  | nil => simp [mget, mset]
  | cons p rest ih =>
      obtain ⟨k', v'⟩ := p
      by_cases h : k' = k
      · simp [mget, mset, h]
      · simp [mget, mset, h, ih]

theorem mset_eq_append [DecidableEq κ] (m : List (κ × α)) (k : κ) (v : α)
    (h : mget m k = none) : mset m k v = m ++ [(k, v)] := by
  induction m with
  | nil => simp [mset]
  | cons p rest ih =>
      obtain ⟨k', v'⟩ := p
      by_cases hk : k' = k
      · simp [mget, hk] at h
      · simp [mget, hk] at h
        simp [mset, hk, ih h]

theorem mem_map_fst_mset [DecidableEq κ] (m : List (κ × α)) (k a : κ)
    (v : α) (h : a ∈ (mset m k v).map Prod.fst) :
    a ∈ m.map Prod.fst ∨ a = k := by
  induction m with
  | nil => simp [mset] at h; simp [h]
  | cons p rest ih =>
      obtain ⟨k', v'⟩ := p
      by_cases hk : k' = k
      · simp [mset, hk] at h
        rcases h with h | h
        · exact Or.inr h
        · exact Or.inl (by simp [h])
      · simp [mset, hk] at h
        rcases h with h | h
        · simp [h]
        · rcases ih (by simpa using h) with h' | h'
          · exact Or.inl (by simp [h'])
          · exact Or.inr h'

theorem nodup_mset [DecidableEq κ] (m : List (κ × α)) (k : κ) (v : α)
    (h : (m.map Prod.fst).Nodup) : ((mset m k v).map Prod.fst).Nodup := by
  induction m with
  | nil => simp [mset]
  | cons p rest ih =>
      obtain ⟨k', v'⟩ := p
      simp only [List.map_cons, List.nodup_cons] at h
      by_cases hk : k' = k
      · subst hk
        simpa [mset, List.nodup_cons] using h
      · simp only [mset, hk, if_false, List.map_cons, List.nodup_cons]
        refine ⟨fun hmem => ?_, ih h.2⟩
        rcases mem_map_fst_mset rest k k' v hmem with h' | h'
        · exact h.1 h'
        · exact hk h'

theorem mget_eq_none_of_not_mem [DecidableEq κ] (m : List (κ × α)) (k : κ)
    (h : k ∉ m.map Prod.fst) : mget m k = none := by
  induction m with
  | nil => simp [mget]
  | cons p rest ih =>
      obtain ⟨k', v'⟩ := p
      simp only [List.map_cons, List.mem_cons] at h
      push_neg at h
      have hne : ¬k' = k := fun hh => h.1 hh.symm
      simp [mget, hne, ih h.2]

theorem mget_mdel_self [DecidableEq κ] (m : List (κ × α)) (k : κ)
    (h : (m.map Prod.fst).Nodup) : mget (mdel m k) k = none := by
  induction m with
  | nil => simp [mdel, mget]
  | cons p rest ih =>
      obtain ⟨k', v'⟩ := p
      simp only [List.map_cons, List.nodup_cons] at h
      by_cases hk : k' = k
      · subst hk
        simpa [mdel] using mget_eq_none_of_not_mem rest k' h.1
      · simp [mdel, mget, hk, ih h.2]

theorem mget_mset_ne [DecidableEq κ] (m : List (κ × α)) (k k' : κ) (v : α)
    (h : k ≠ k') : mget (mset m k v) k' = mget m k' := by
  induction m with
  | nil => simp [mget, mset, h]
  | cons p rest ih =>
      obtain ⟨k'', v''⟩ := p
      by_cases hk : k'' = k
      · subst hk
        simp [mget, mset, h]
      · simp [mget, mset, hk, ih]

/-! ## Delivery-pipeline evaluation lemmas -/

theorem setCodes_verificationCodes (st : EmailState)
    (vc : List (String × VerificationRecord)) :
    (setCodes st vc).verificationCodes = vc := rfl

theorem setCodes_rateLimits (st : EmailState)
    (vc : List (String × VerificationRecord)) :
    (setCodes st vc).rateLimits = st.rateLimits := rfl

theorem setCodes_nextId (st : EmailState)
    (vc : List (String × VerificationRecord)) :
    (setCodes st vc).nextId = st.nextId := rfl

theorem setRateLimits_rateLimits (st : EmailState)
    (rl : List (String × List ℤ)) :
    (setRateLimits st rl).rateLimits = rl := rfl

theorem setRateLimits_verificationCodes (st : EmailState)
    (rl : List (String × List ℤ)) :
    (setRateLimits st rl).verificationCodes = st.verificationCodes := rfl

theorem setRateLimits_nextId (st : EmailState) (rl : List (String × List ℤ)) :
    (setRateLimits st rl).nextId = st.nextId := rfl

theorem deliverOkState_rateLimits (st : EmailState) (d : EmailData)
    (ty : String) (now : ℤ) (j : ℕ) (m : Mailer) :
    (deliverOkState st d ty now j m).rateLimits = st.rateLimits := rfl

theorem deliverOkState_verificationCodes (st : EmailState) (d : EmailData)
    (ty : String) (now : ℤ) (j : ℕ) (m : Mailer) :
    (deliverOkState st d ty now j m).verificationCodes =
      st.verificationCodes := rfl

theorem deliverFailState_rateLimits (st : EmailState) (d : EmailData)
    (ty : String) (now : ℤ) (k : ℕ) (m : Mailer) :
    (deliverFailState st d ty now k m).rateLimits = st.rateLimits := rfl

theorem deliverFailState_verificationCodes (st : EmailState) (d : EmailData)
    (ty : String) (now : ℤ) (k : ℕ) (m : Mailer) :
    (deliverFailState st d ty now k m).verificationCodes =
      st.verificationCodes := rfl

/-- Evaluation of `sendEmailWithRetry` when the transport first succeeds
on attempt `j`. -/
theorem sendEmailWithRetry_ok_eq (st : EmailState) (d : EmailData)
    (ty : String) (m : Mailer) (now : ℤ) (k j : ℕ)
    (hm : firstSuccess m k = some j) :
    sendEmailWithRetry st d ty m now k =
      (deliverOkState st d ty now j m, .ok st.nextId j) := by
  unfold sendEmailWithRetry
  rw [hm]
  rfl

/-- Evaluation of `sendEmailWithRetry` when every attempt fails. -/
theorem sendEmailWithRetry_fail_eq (st : EmailState) (d : EmailData)
    (ty : String) (m : Mailer) (now : ℤ) (k : ℕ)
    (hm : firstSuccess m k = none) :
    sendEmailWithRetry st d ty m now k =
      (deliverFailState st d ty now k m,
       .failed ("Failed to send email after " ++ toString k ++
         " attempts: " ++ (m k).getD "")) := by
  unfold sendEmailWithRetry
  rw [hm]
  rfl

/-- Evaluation of `checkRateLimit` when the pruned list already holds 3
or more timestamps. -/
theorem checkRateLimit_reject (st : EmailState) (email ty : String)
    (now : ℤ)
    (h : 3 ≤ (((mget st.rateLimits (email ++ ":" ++ ty)).getD []).filter
      fun t => now - 60 * 60 * 1000 < t).length) :
    checkRateLimit st email ty now =
      (setRateLimits st (mset st.rateLimits (email ++ ":" ++ ty)
        (((mget st.rateLimits (email ++ ":" ++ ty)).getD []).filter
          fun t => now - 60 * 60 * 1000 < t)), false) := by
  simp only [checkRateLimit]
  rw [if_pos h]
  rfl

/-- Evaluation of `checkRateLimit` when a slot is free: the pruned list
plus `now` is stored and the check passes. -/
theorem checkRateLimit_pass (st : EmailState) (email ty : String)
    (now : ℤ)
    (h : ¬3 ≤ (((mget st.rateLimits (email ++ ":" ++ ty)).getD []).filter
      fun t => now - 60 * 60 * 1000 < t).length) :
    checkRateLimit st email ty now =
      (setRateLimits st (mset st.rateLimits (email ++ ":" ++ ty)
        ((((mget st.rateLimits (email ++ ":" ++ ty)).getD []).filter
          fun t => now - 60 * 60 * 1000 < t) ++ [now])), true) := by
  simp only [checkRateLimit]
  rw [if_neg h]
  rfl

/-- Evaluation of `sendVerificationCode` when the limiter admits and the
transport succeeds immediately: the code record is stored, the delivery
succeeds, and the call reports the expiry and the fresh email id. -/
theorem sendVerificationCode_admit_ok (st : EmailState) (email : String)
    (now : ℤ) (r : ℚ) (m : Mailer)
    (hm : firstSuccess m 3 = some 1)
    (hcnt : ¬3 ≤ (((mget st.rateLimits
      (email ++ ":" ++ "verification")).getD []).filter
      fun t => now - 60 * 60 * 1000 < t).length) :
    sendVerificationCode st email now r m =
      (deliverOkState
        (setCodes (setRateLimits st (mset st.rateLimits
            (email ++ ":" ++ "verification")
            ((((mget st.rateLimits (email ++ ":" ++ "verification")).getD
              []).filter fun t => now - 60 * 60 * 1000 < t) ++ [now])))
          (mset st.verificationCodes email
            ⟨generateVerificationCode r, now + 10 * 60 * 1000, 0⟩))
        ⟨email⟩ "verification" now 1 m,
       .sent (now + 10 * 60 * 1000) st.nextId) := by
  unfold sendVerificationCode
  rw [checkRateLimit_pass st email "verification" now hcnt]
  dsimp only
  rw [sendEmailWithRetry_ok_eq _ _ _ _ _ _ _ hm]
  rfl

/-- Evaluation of `sendVerificationCode` when the limiter admits but the
transport fails permanently: the stored code record and the consumed
rate-limit slot survive, and the delivery failure propagates. -/
theorem sendVerificationCode_admit_fail (st : EmailState) (email : String)
    (now : ℤ) (r : ℚ) (m : Mailer)
    (hm : firstSuccess m 3 = none)
    (hcnt : ¬3 ≤ (((mget st.rateLimits
      (email ++ ":" ++ "verification")).getD []).filter
      fun t => now - 60 * 60 * 1000 < t).length) :
    sendVerificationCode st email now r m =
      (deliverFailState
        (setCodes (setRateLimits st (mset st.rateLimits
            (email ++ ":" ++ "verification")
            ((((mget st.rateLimits (email ++ ":" ++ "verification")).getD
              []).filter fun t => now - 60 * 60 * 1000 < t) ++ [now])))
          (mset st.verificationCodes email
            ⟨generateVerificationCode r, now + 10 * 60 * 1000, 0⟩))
        ⟨email⟩ "verification" now 3 m,
       .deliveryFailed ("Failed to send email after " ++ toString 3 ++
         " attempts: " ++ (m 3).getD "")) := by
  unfold sendVerificationCode
  rw [checkRateLimit_pass st email "verification" now hcnt]
  dsimp only
  rw [sendEmailWithRetry_fail_eq _ _ _ _ _ _ hm]
  rfl

/-- Evaluation of `sendVerificationCode` when the limiter refuses: the
pruned timestamp list is stored (no slot consumed) and nothing else
changes. -/
theorem sendVerificationCode_reject (st : EmailState) (email : String)
    (now : ℤ) (r : ℚ) (m : Mailer)
    (hcnt : 3 ≤ (((mget st.rateLimits
      (email ++ ":" ++ "verification")).getD []).filter
      fun t => now - 60 * 60 * 1000 < t).length) :
    sendVerificationCode st email now r m =
      (setRateLimits st (mset st.rateLimits (email ++ ":" ++ "verification")
        (((mget st.rateLimits (email ++ ":" ++ "verification")).getD
          []).filter fun t => now - 60 * 60 * 1000 < t)),
       .rateLimited) := by
  unfold sendVerificationCode
  rw [checkRateLimit_reject st email "verification" now hcnt]

/-! ## Claim theorems -/

/-- C1, counterexample.  With a verified, amply funded sender, recipient
balance the binary64 value of the decimal 10.10 and amount the binary64
value of the decimal 0.20, the send succeeds — but the recipient's balance
does not increase by exactly the amount, and the result is not the exact
decimal 10.30 either: the credit is computed in binary64 and drifts.  This
refutes the claim's "increases B's balance by exactly amt … with no decimal
drift (e.g. for values like 10.10 and 0.20)". -/
theorem c1_counterexample :
    let out := sendHandler usersAB [] emptyEmailState "a@x" "b@x" dec0_20 ""
      "TX-1" 0 (fun _ => none) (fun _ => none)
    out.result = .ok txnAB (jsSub dec100 dec0_20) ∧
    (mget out.users "b@x").map User.balance = some (jsAdd dec10_10 dec0_20) ∧
    jsAdd dec10_10 dec0_20 ≠ dec10_10 + dec0_20 ∧
    jsAdd dec10_10 dec0_20 ≠ dec10_30 := by
  refine ⟨by decide, by decide, by decide, by decide⟩

/-- C4.  A delivery whose transport fails on all 3 attempts parks exactly
one pending entry, keyed by the generated id (0, the state's fresh id).
Retrying that id with a now-succeeding transport succeeds under a fresh id
(1 ≠ 0) and appends a new terminal-success log — but, contrary to the claim
and the source's own "remove from failed emails if it was there" intent,
the original pending entry is still present afterwards: the success-path
delete targets the retry's fresh id, never the id being retried. -/
theorem c4_retry_keeps_pending_entry :
    (sendEmailWithRetry emptyEmailState ⟨"a@x"⟩ "receipt"
      (fun _ => some "boom") 0 3).2 =
      .failed "Failed to send email after 3 attempts: boom" ∧
    (sendEmailWithRetry emptyEmailState ⟨"a@x"⟩ "receipt"
      (fun _ => some "boom") 0 3).1.failedEmails.length = 1 ∧
    mhas (sendEmailWithRetry emptyEmailState ⟨"a@x"⟩ "receipt"
      (fun _ => some "boom") 0 3).1.failedEmails 0 = true ∧
    (retryFailedEmail (sendEmailWithRetry emptyEmailState ⟨"a@x"⟩ "receipt"
      (fun _ => some "boom") 0 3).1 0 (fun _ => none) 5).2 =
      .retrySucceeded 1 1 ∧
    (retryFailedEmail (sendEmailWithRetry emptyEmailState ⟨"a@x"⟩ "receipt"
      (fun _ => some "boom") 0 3).1 0
      (fun _ => none) 5).1.emailLogs.length = 2 ∧
    ((retryFailedEmail (sendEmailWithRetry emptyEmailState ⟨"a@x"⟩ "receipt"
      (fun _ => some "boom") 0 3).1 0
      (fun _ => none) 5).1.emailLogs.getLast?).map LogEntry.success =
      some true ∧
    ((retryFailedEmail (sendEmailWithRetry emptyEmailState ⟨"a@x"⟩ "receipt"
      (fun _ => some "boom") 0 3).1 0
      (fun _ => none) 5).1.emailLogs.getLast?).map LogEntry.id = some 1 ∧
    mhas (retryFailedEmail (sendEmailWithRetry emptyEmailState ⟨"a@x"⟩
      "receipt" (fun _ => some "boom") 0 3).1 0
      (fun _ => none) 5).1.failedEmails 0 = true := by
  refine ⟨by decide, by decide, by decide, by decide, by decide, by decide,
    by decide, by decide⟩

/-- C5, counterexample.  The delay before attempt 3 is
`2^(3-2) * 2000 = 4000` ms, not the 8000 ms stated by the claim (the
claim's own formula already contradicts its "8000"). -/
theorem c5_counterexample :
    backoffDelay 3 = 4000 ∧ backoffDelay 3 ≠ 8000 := by decide

/-- C5, amended.  The suspension before attempt `n` with `n > 1` is
`2^(n-2) * 2000` ms; the delays before attempts 1, 2 and 3 are 0 ms,
2000 ms and 4000 ms respectively. -/
theorem c5_backoff_schedule (n : ℕ) (h : 1 < n) :
    backoffDelay n = 2 ^ (n - 2) * 2000 ∧
    backoffDelay 1 = 0 ∧ backoffDelay 2 = 2000 ∧ backoffDelay 3 = 4000 := by
  refine ⟨?_, by decide, by decide, by decide⟩
  simp [backoffDelay, h]

/-- C5, witness: the amended schedule at the concrete attempt 3. -/
theorem c5_backoff_schedule_witness :
    backoffDelay 3 = 2 ^ (3 - 2) * 2000 ∧
    backoffDelay 1 = 0 ∧ backoffDelay 2 = 2000 ∧ backoffDelay 3 = 4000 :=
  c5_backoff_schedule 3 (by decide)

/-- C6, counterexample.  Three wrong checks against a live record leave the
record stored with attempt counter 3 (the claim says it is deleted the
moment the counter reaches 3), and the 4th check — with the correct code —
fails as attempts-exhausted, not as not-found. -/
theorem c6_counterexample :
    let st1 := (verifyCode estC6 "u@x" 7 5).1
    let st2 := (verifyCode st1 "u@x" 7 5).1
    let st3 := (verifyCode st2 "u@x" 7 5).1
    (verifyCode st2 "u@x" 7 5).2 = .invalidCode ∧
    mget st3.verificationCodes "u@x" = some ⟨111111, 1000, 3⟩ ∧
    (verifyCode st3 "u@x" 111111 5).2 = .attemptsExhausted ∧
    (verifyCode st3 "u@x" 111111 5).2 ≠ .notFound := by
  refine ⟨by decide, by decide, by decide, by decide⟩

/-- C7, counterexample.  The code generator
(`Math.floor(100000 + Math.random() * 900000)`) never produces a value
below 100000, so no code with a leading zero — `000000` through `099999` —
is possible, refuting "every 6-digit string, including those with a leading
zero, is a possible code". -/
theorem c7_counterexample :
    ¬ ∃ r : ℚ, 0 ≤ r ∧ r < 1 ∧ generateVerificationCode r < 100000 := by
  rintro ⟨r, hr0, _hr1, hlt⟩
  have h1 : (100000 : ℚ) ≤ 100000 + r * 900000 := by nlinarith
  have h2 : (100000 : ℤ) ≤ ⌊(100000 : ℚ) + r * 900000⌋ := by
    rw [Int.le_floor]; exact_mod_cast h1
  have h3 : (100000 : ℕ) ≤ generateVerificationCode r := by
    unfold generateVerificationCode
    omega
  omega

/-- C7, amended.  The attainable codes are exactly the integers 100000
through 999999: every 6-digit value without a leading zero is possible and
nothing else; the `.toString()` of such a value is already 6 characters, so
no left-zero-padding occurs or is needed. -/
theorem c7_amended_range (k : ℕ) :
    (∃ r : ℚ, 0 ≤ r ∧ r < 1 ∧ generateVerificationCode r = k) ↔
    100000 ≤ k ∧ k ≤ 999999 := by
  constructor
  · rintro ⟨r, hr0, hr1, rfl⟩
    have h2 : (100000 : ℤ) ≤ ⌊(100000 : ℚ) + r * 900000⌋ :=
      Int.le_floor.mpr (by push_cast; nlinarith)
    have h4 : ⌊(100000 : ℚ) + r * 900000⌋ < 1000000 :=
      Int.floor_lt.mpr (by push_cast; nlinarith)
    unfold generateVerificationCode
    omega
  · rintro ⟨hk1, hk2⟩
    refine ⟨((k : ℚ) - 100000) / 900000, ?_, ?_, ?_⟩
    · have hk : (100000 : ℚ) ≤ (k : ℚ) := by exact_mod_cast hk1
      have : (0 : ℚ) ≤ (k : ℚ) - 100000 := by linarith
      positivity
    · rw [div_lt_one (by norm_num)]
      have hk : (k : ℚ) ≤ 999999 := by exact_mod_cast hk2
      linarith
    · unfold generateVerificationCode
      have hval : (100000 : ℚ) + ((k : ℚ) - 100000) / 900000 * 900000 =
          (k : ℚ) := by field_simp
      rw [hval]
      rw [show ((k : ℚ)) = ((k : ℤ) : ℚ) by push_cast; ring, Int.floor_intCast]
      omega

/-- C7, witness: 123456 is attainable. -/
theorem c7_amended_range_witness :
    ∃ r : ℚ, 0 ≤ r ∧ r < 1 ∧ generateVerificationCode r = 123456 :=
  (c7_amended_range 123456).mpr (by decide)

/-- C2.  Whenever the stored sender account is unverified, a send with a
present recipient and positive amount fails with the email-not-verified
error and touches nothing; moreover — whatever the recipient or amount —
the result is never insufficient-funds and neither the user store nor the
transaction store is mutated, because the verified check precedes the
balance check and every failing path returns before any mutation. -/
theorem c2_unverified_send (users : UserMap) (txns : TxnMap)
    (est : EmailState) (senderEmail recipientEmail : String) (amount : F64)
    (note txId : String) (now : ℤ) (m1 m2 : Mailer) (sender : User)
    (hs : mget users senderEmail = some sender)
    (hver : sender.verified = false) :
    (recipientEmail ≠ "" → 0 < amount →
      sendHandler users txns est senderEmail recipientEmail amount note txId
        now m1 m2 = ⟨users, txns, est, .emailNotVerified⟩) ∧
    (sendHandler users txns est senderEmail recipientEmail amount note txId
        now m1 m2).result ≠ .insufficientFunds ∧
    (sendHandler users txns est senderEmail recipientEmail amount note txId
        now m1 m2).users = users ∧
    (sendHandler users txns est senderEmail recipientEmail amount note txId
        now m1 m2).txns = txns := by
  constructor
  · intro hre hpos
    have h1 : ¬(recipientEmail = "" ∨ amount = 0) := by
      push_neg
      exact ⟨hre, ne_of_gt hpos⟩
    have h2 : ¬amount ≤ 0 := not_le.mpr hpos
    simp [sendHandler, h1, h2, hs, hver]
  · by_cases h1 : recipientEmail = "" ∨ amount = 0
    · simp [sendHandler, h1]
    · by_cases h2 : amount ≤ 0
      · simp [sendHandler, h1, h2]
      · simp [sendHandler, h1, h2, hs, hver]

/-- C2, witness: the concrete unverified account `u@x` with balance 100. -/
theorem c2_unverified_send_witness :
    sendHandler usersU [] emptyEmailState "u@x" "b@x" dec0_20 "" "TX-1" 0
      (fun _ => none) (fun _ => none) =
      ⟨usersU, [], emptyEmailState, .emailNotVerified⟩ ∧
    (sendHandler usersU [] emptyEmailState "u@x" "b@x" dec0_20 "" "TX-1" 0
      (fun _ => none) (fun _ => none)).result ≠ .insufficientFunds :=
  ⟨(c2_unverified_send usersU [] emptyEmailState "u@x" "b@x" dec0_20 ""
      "TX-1" 0 (fun _ => none) (fun _ => none) userU (by decide)
      (by decide)).1 (by decide) (by decide),
   (c2_unverified_send usersU [] emptyEmailState "u@x" "b@x" dec0_20 ""
      "TX-1" 0 (fun _ => none) (fun _ => none) userU (by decide)
      (by decide)).2.1⟩

/-- C1, amended.  For a stored, verified sender with balance `b`,
`0 < amt ≤ b`, and any recipient address other than the sender's own, the
send succeeds, leaves the sender's balance at the binary64 result of
`b - amt`, stores an immutable completed transaction whose `amount` field
is exactly the transmitted binary64 amount (the recipient name snapshotted
from the account when one exists, else from the email's local part), and
returns the sender's post-transfer balance; when an account exists at the
recipient address its balance becomes the binary64 result of its balance
plus `amt`, and when none exists no credit occurs and only the sender's
entry changes.  The arithmetic is binary64, so for decimal inputs such as
10.10 and 0.20 the credited balance drifts from the exact decimal sum (see
the counterexample). -/
theorem c1_amended_send (users : UserMap) (txns : TxnMap)
    (est : EmailState) (senderEmail recipientEmail : String) (amount : F64)
    (note txId : String) (now : ℤ) (m1 m2 : Mailer) (sender : User)
    (hs : mget users senderEmail = some sender)
    (hver : sender.verified = true)
    (hpos : 0 < amount)
    (hle : amount ≤ sender.balance)
    (hne : recipientEmail ≠ senderEmail)
    (hre : recipientEmail ≠ "") :
    (sendHandler users txns est senderEmail recipientEmail amount note txId
        now m1 m2).result =
      .ok (completedTxn txId senderEmail sender.name recipientEmail
        (match mget users recipientEmail with
         | some u => u.name
         | none => localPart recipientEmail) amount note now)
        (jsSub sender.balance amount) ∧
    (sendHandler users txns est senderEmail recipientEmail amount note txId
        now m1 m2).txns =
      mset txns txId (completedTxn txId senderEmail sender.name
        recipientEmail
        (match mget users recipientEmail with
         | some u => u.name
         | none => localPart recipientEmail) amount note now) ∧
    mget (sendHandler users txns est senderEmail recipientEmail amount note
        txId now m1 m2).users senderEmail =
      some { sender with balance := jsSub sender.balance amount } ∧
    (∀ recipient : User, mget users recipientEmail = some recipient →
      mget (sendHandler users txns est senderEmail recipientEmail amount
        note txId now m1 m2).users recipientEmail =
        some { recipient with balance := jsAdd recipient.balance amount }) ∧
    (mget users recipientEmail = none →
      (sendHandler users txns est senderEmail recipientEmail amount note
        txId now m1 m2).users =
        mset users senderEmail
          { sender with balance := jsSub sender.balance amount }) := by
  have h1 : ¬(recipientEmail = "" ∨ amount = 0) := by
    push_neg
    exact ⟨hre, ne_of_gt hpos⟩
  have h2 : ¬amount ≤ 0 := not_le.mpr hpos
  have hlt : ¬sender.balance < amount := not_lt.mpr hle
  rcases hrec : mget users recipientEmail with _ | recipient
  · refine ⟨?_, ?_, ?_, ?_, ?_⟩ <;>
      simp [sendHandler, h1, h2, hs, hver, hlt, hne, hrec, completedTxn,
        mget_mset_self]
  · refine ⟨?_, ?_, ?_, ?_, ?_⟩ <;>
      simp [sendHandler, h1, h2, hs, hver, hlt, hne, hrec, completedTxn,
        mget_mset_self, mget_mset_ne]

/-- C1, witness: the amended statement at the concrete two-account store,
amount the binary64 value of 0.20, once with the stored recipient `b@x`
(whose balance is credited) and once with the non-account recipient `c@y`
(no credit side). -/
theorem c1_amended_send_witness :
    (sendHandler usersAB [] emptyEmailState "a@x" "b@x" dec0_20 "" "TX-1" 0
        (fun _ => none) (fun _ => none)).result =
      .ok (completedTxn "TX-1" "a@x" userA.name "b@x" userB.name dec0_20 ""
        0) (jsSub userA.balance dec0_20) ∧
    (sendHandler usersAB [] emptyEmailState "a@x" "b@x" dec0_20 "" "TX-1" 0
        (fun _ => none) (fun _ => none)).txns =
      mset [] "TX-1" (completedTxn "TX-1" "a@x" userA.name "b@x" userB.name
        dec0_20 "" 0) ∧
    mget (sendHandler usersAB [] emptyEmailState "a@x" "b@x" dec0_20 ""
        "TX-1" 0 (fun _ => none) (fun _ => none)).users "a@x" =
      some { userA with balance := jsSub userA.balance dec0_20 } ∧
    mget (sendHandler usersAB [] emptyEmailState "a@x" "b@x" dec0_20 ""
        "TX-1" 0 (fun _ => none) (fun _ => none)).users "b@x" =
      some { userB with balance := jsAdd userB.balance dec0_20 } ∧
    (sendHandler usersAB [] emptyEmailState "a@x" "c@y" dec0_20 "" "TX-2" 0
        (fun _ => none) (fun _ => none)).result =
      .ok (completedTxn "TX-2" "a@x" userA.name "c@y" (localPart "c@y")
        dec0_20 "" 0) (jsSub userA.balance dec0_20) ∧
    (sendHandler usersAB [] emptyEmailState "a@x" "c@y" dec0_20 "" "TX-2" 0
        (fun _ => none) (fun _ => none)).txns =
      mset [] "TX-2" (completedTxn "TX-2" "a@x" userA.name "c@y"
        (localPart "c@y") dec0_20 "" 0) ∧
    mget (sendHandler usersAB [] emptyEmailState "a@x" "c@y" dec0_20 ""
        "TX-2" 0 (fun _ => none) (fun _ => none)).users "a@x" =
      some { userA with balance := jsSub userA.balance dec0_20 } ∧
    (sendHandler usersAB [] emptyEmailState "a@x" "c@y" dec0_20 "" "TX-2" 0
        (fun _ => none) (fun _ => none)).users =
      mset usersAB "a@x"
        { userA with balance := jsSub userA.balance dec0_20 } :=
  ⟨(c1_amended_send usersAB [] emptyEmailState "a@x" "b@x" dec0_20 "" "TX-1"
      0 (fun _ => none) (fun _ => none) userA (by decide) (by decide)
      (by decide) (by decide) (by decide) (by decide)).1,
   (c1_amended_send usersAB [] emptyEmailState "a@x" "b@x" dec0_20 "" "TX-1"
      0 (fun _ => none) (fun _ => none) userA (by decide) (by decide)
      (by decide) (by decide) (by decide) (by decide)).2.1,
   (c1_amended_send usersAB [] emptyEmailState "a@x" "b@x" dec0_20 "" "TX-1"
      0 (fun _ => none) (fun _ => none) userA (by decide) (by decide)
      (by decide) (by decide) (by decide) (by decide)).2.2.1,
   (c1_amended_send usersAB [] emptyEmailState "a@x" "b@x" dec0_20 "" "TX-1"
      0 (fun _ => none) (fun _ => none) userA (by decide) (by decide)
      (by decide) (by decide) (by decide) (by decide)).2.2.2.1 userB
      (by decide),
   (c1_amended_send usersAB [] emptyEmailState "a@x" "c@y" dec0_20 "" "TX-2"
      0 (fun _ => none) (fun _ => none) userA (by decide) (by decide)
      (by decide) (by decide) (by decide) (by decide)).1,
   (c1_amended_send usersAB [] emptyEmailState "a@x" "c@y" dec0_20 "" "TX-2"
      0 (fun _ => none) (fun _ => none) userA (by decide) (by decide)
      (by decide) (by decide) (by decide) (by decide)).2.1,
   (c1_amended_send usersAB [] emptyEmailState "a@x" "c@y" dec0_20 "" "TX-2"
      0 (fun _ => none) (fun _ => none) userA (by decide) (by decide)
      (by decide) (by decide) (by decide) (by decide)).2.2.1,
   (c1_amended_send usersAB [] emptyEmailState "a@x" "c@y" dec0_20 "" "TX-2"
      0 (fun _ => none) (fun _ => none) userA (by decide) (by decide)
      (by decide) (by decide) (by decide) (by decide)).2.2.2.2 (by decide)⟩

/-- C3.  Once an eligible send has debited the sender, credited the
recipient and stored the completed transaction, the outcome of the two
receipt deliveries is irrelevant to everything the claim protects: for any
transports (including ones that permanently fail), the resulting user
store, transaction store and response equal those of a run whose
deliveries succeed; the stored record is intact and the response is still
the success payload with the sender's new balance. -/
theorem c3_receipt_failure_not_rolled_back (users : UserMap) (txns : TxnMap)
    (est : EmailState) (senderEmail recipientEmail : String) (amount : F64)
    (note txId : String) (now : ℤ) (m1 m2 : Mailer) (sender recipient : User)
    (hs : mget users senderEmail = some sender)
    (hr : mget users recipientEmail = some recipient)
    (hver : sender.verified = true)
    (hpos : 0 < amount)
    (hle : amount ≤ sender.balance)
    (hne : recipientEmail ≠ senderEmail)
    (hre : recipientEmail ≠ "") :
    (sendHandler users txns est senderEmail recipientEmail amount note txId
        now m1 m2).users =
      (sendHandler users txns est senderEmail recipientEmail amount note txId
        now (fun _ => none) (fun _ => none)).users ∧
    (sendHandler users txns est senderEmail recipientEmail amount note txId
        now m1 m2).txns =
      (sendHandler users txns est senderEmail recipientEmail amount note txId
        now (fun _ => none) (fun _ => none)).txns ∧
    (sendHandler users txns est senderEmail recipientEmail amount note txId
        now m1 m2).result =
      (sendHandler users txns est senderEmail recipientEmail amount note txId
        now (fun _ => none) (fun _ => none)).result ∧
    mget (sendHandler users txns est senderEmail recipientEmail amount note
        txId now m1 m2).txns txId =
      some (completedTxn txId senderEmail sender.name recipientEmail
        recipient.name amount note now) ∧
    (sendHandler users txns est senderEmail recipientEmail amount note txId
        now m1 m2).result =
      .ok (completedTxn txId senderEmail sender.name recipientEmail
        recipient.name amount note now) (jsSub sender.balance amount) := by
  have h1 : ¬(recipientEmail = "" ∨ amount = 0) := by
    push_neg
    exact ⟨hre, ne_of_gt hpos⟩
  have h2 : ¬amount ≤ 0 := not_le.mpr hpos
  have hlt : ¬sender.balance < amount := not_lt.mpr hle
  refine ⟨?_, ?_, ?_, ?_, ?_⟩ <;>
    simp [sendHandler, h1, h2, hs, hr, hver, hlt, hne, completedTxn,
      mget_mset_self]

/-- C3, witness: the concrete two-account store with both receipt
transports failing permanently. -/
theorem c3_receipt_failure_witness :
    (sendHandler usersAB [] emptyEmailState "a@x" "b@x" dec0_20 "" "TX-1" 0
        (fun _ => some "down") (fun _ => some "down")).users =
      (sendHandler usersAB [] emptyEmailState "a@x" "b@x" dec0_20 "" "TX-1" 0
        (fun _ => none) (fun _ => none)).users ∧
    (sendHandler usersAB [] emptyEmailState "a@x" "b@x" dec0_20 "" "TX-1" 0
        (fun _ => some "down") (fun _ => some "down")).txns =
      (sendHandler usersAB [] emptyEmailState "a@x" "b@x" dec0_20 "" "TX-1" 0
        (fun _ => none) (fun _ => none)).txns ∧
    (sendHandler usersAB [] emptyEmailState "a@x" "b@x" dec0_20 "" "TX-1" 0
        (fun _ => some "down") (fun _ => some "down")).result =
      (sendHandler usersAB [] emptyEmailState "a@x" "b@x" dec0_20 "" "TX-1" 0
        (fun _ => none) (fun _ => none)).result ∧
    mget (sendHandler usersAB [] emptyEmailState "a@x" "b@x" dec0_20 ""
        "TX-1" 0 (fun _ => some "down") (fun _ => some "down")).txns "TX-1" =
      some (completedTxn "TX-1" "a@x" userA.name "b@x" userB.name dec0_20 ""
        0) ∧
    (sendHandler usersAB [] emptyEmailState "a@x" "b@x" dec0_20 "" "TX-1" 0
        (fun _ => some "down") (fun _ => some "down")).result =
      .ok (completedTxn "TX-1" "a@x" userA.name "b@x" userB.name dec0_20 ""
        0) (jsSub userA.balance dec0_20) :=
  c3_receipt_failure_not_rolled_back usersAB [] emptyEmailState "a@x" "b@x"
    dec0_20 "" "TX-1" 0 (fun _ => some "down") (fun _ => some "down") userA
    userB (by decide) (by decide) (by decide) (by decide) (by decide)
    (by decide) (by decide)

/-- C6, amended.  Against a live record with attempt counter 0 and three
wrong, unexpired checks: each wrong check fails as invalid-code and the
record survives, reaching counter 3 after the third; the record is deleted
on the *next* check — the 4th check, even with the correct code, fails as
attempts-exhausted and purges the record — and only a 5th check fails as
not-found. -/
theorem c6_amended_exhaustion (st : EmailState) (email : String)
    (code wrong : ℕ) (exp t1 t2 t3 t4 t5 : ℤ)
    (hrec : mget st.verificationCodes email = some ⟨code, exp, 0⟩)
    (hnd : (st.verificationCodes.map Prod.fst).Nodup)
    (hw : wrong ≠ code)
    (h1 : t1 ≤ exp) (h2 : t2 ≤ exp) (h3 : t3 ≤ exp) (h4 : t4 ≤ exp) :
    (verifyCode st email wrong t1).2 = .invalidCode ∧
    (verifyCode (verifyCode st email wrong t1).1 email wrong t2).2 =
      .invalidCode ∧
    (verifyCode (verifyCode (verifyCode st email wrong t1).1 email wrong
      t2).1 email wrong t3).2 = .invalidCode ∧
    mget (verifyCode (verifyCode (verifyCode st email wrong t1).1 email
      wrong t2).1 email wrong t3).1.verificationCodes email =
      some ⟨code, exp, 3⟩ ∧
    (verifyCode (verifyCode (verifyCode (verifyCode st email wrong t1).1
      email wrong t2).1 email wrong t3).1 email code t4).2 =
      .attemptsExhausted ∧
    mget (verifyCode (verifyCode (verifyCode (verifyCode st email wrong
      t1).1 email wrong t2).1 email wrong t3).1 email code
      t4).1.verificationCodes email = none ∧
    (verifyCode (verifyCode (verifyCode (verifyCode (verifyCode st email
      wrong t1).1 email wrong t2).1 email wrong t3).1 email code t4).1
      email code t5).2 = .notFound := by
  have hcw : code ≠ wrong := Ne.symm hw
  have hx1 : ¬exp < t1 := not_lt.mpr h1
  have hx2 : ¬exp < t2 := not_lt.mpr h2
  have hx3 : ¬exp < t3 := not_lt.mpr h3
  have hx4 : ¬exp < t4 := not_lt.mpr h4
  have e1 : verifyCode st email wrong t1 =
      (setCodes st (mset st.verificationCodes email ⟨code, exp, 1⟩),
       .invalidCode) := by
    simp [verifyCode, setCodes, hrec, hx1, hcw]
  have g1 : mget (mset st.verificationCodes email
      (⟨code, exp, 1⟩ : VerificationRecord)) email = some ⟨code, exp, 1⟩ :=
    mget_mset_self _ _ _
  have e2 : verifyCode
      (setCodes st (mset st.verificationCodes email ⟨code, exp, 1⟩))
      email wrong t2 =
      (setCodes st (mset (mset st.verificationCodes email ⟨code, exp, 1⟩)
        email ⟨code, exp, 2⟩), .invalidCode) := by
    simp [verifyCode, setCodes, g1, hx2, hcw]
  have g2 : mget (mset (mset st.verificationCodes email ⟨code, exp, 1⟩)
      email (⟨code, exp, 2⟩ : VerificationRecord)) email =
      some ⟨code, exp, 2⟩ := mget_mset_self _ _ _
  have e3 : verifyCode
      (setCodes st (mset (mset st.verificationCodes email ⟨code, exp, 1⟩)
        email ⟨code, exp, 2⟩)) email wrong t3 =
      (setCodes st (mset (mset (mset st.verificationCodes email
        ⟨code, exp, 1⟩) email ⟨code, exp, 2⟩) email ⟨code, exp, 3⟩),
       .invalidCode) := by
    simp [verifyCode, setCodes, g2, hx3, hcw]
  have g3 : mget (mset (mset (mset st.verificationCodes email
      ⟨code, exp, 1⟩) email ⟨code, exp, 2⟩) email
      (⟨code, exp, 3⟩ : VerificationRecord)) email = some ⟨code, exp, 3⟩ :=
    mget_mset_self _ _ _
  have e4 : verifyCode
      (setCodes st (mset (mset (mset st.verificationCodes email
        ⟨code, exp, 1⟩) email ⟨code, exp, 2⟩) email ⟨code, exp, 3⟩))
      email code t4 =
      (setCodes st (mdel (mset (mset (mset st.verificationCodes email
        ⟨code, exp, 1⟩) email ⟨code, exp, 2⟩) email ⟨code, exp, 3⟩) email),
       .attemptsExhausted) := by
    simp [verifyCode, setCodes, g3, hx4]
  have nd3 : ((mset (mset (mset st.verificationCodes email ⟨code, exp, 1⟩)
      email ⟨code, exp, 2⟩) email
      (⟨code, exp, 3⟩ : VerificationRecord)).map Prod.fst).Nodup :=
    nodup_mset _ _ _ (nodup_mset _ _ _ (nodup_mset _ _ _ hnd))
  have g4 : mget (mdel (mset (mset (mset st.verificationCodes email
      ⟨code, exp, 1⟩) email ⟨code, exp, 2⟩) email
      (⟨code, exp, 3⟩ : VerificationRecord)) email) email = none :=
    mget_mdel_self _ _ nd3
  have e5 : verifyCode
      (setCodes st (mdel (mset (mset (mset st.verificationCodes email
        ⟨code, exp, 1⟩) email ⟨code, exp, 2⟩) email ⟨code, exp, 3⟩) email))
      email code t5 =
      (setCodes st (mdel (mset (mset (mset st.verificationCodes email
        ⟨code, exp, 1⟩) email ⟨code, exp, 2⟩) email ⟨code, exp, 3⟩) email),
       .notFound) := by
    simp [verifyCode, setCodes, g4]
  have hproj : ∀ (s : EmailState) (vc : List (String × VerificationRecord)),
      (setCodes s vc).verificationCodes = vc := fun _ _ => rfl
  refine ⟨?_, ?_, ?_, ?_, ?_, ?_, ?_⟩ <;>
    simp [e1, e2, e3, e4, e5, hproj, g3, g4]

/-- C6, witness: the amended behaviour at the concrete record
(code 111111, expiry 1000, counter 0) with wrong guess 7 at times ≤ 1000. -/
theorem c6_amended_exhaustion_witness :
    (verifyCode estC6 "u@x" 7 5).2 = .invalidCode ∧
    (verifyCode (verifyCode estC6 "u@x" 7 5).1 "u@x" 7 5).2 =
      .invalidCode ∧
    (verifyCode (verifyCode (verifyCode estC6 "u@x" 7 5).1 "u@x" 7
      5).1 "u@x" 7 5).2 = .invalidCode ∧
    mget (verifyCode (verifyCode (verifyCode estC6 "u@x" 7 5).1 "u@x"
      7 5).1 "u@x" 7 5).1.verificationCodes "u@x" =
      some ⟨111111, 1000, 3⟩ ∧
    (verifyCode (verifyCode (verifyCode (verifyCode estC6 "u@x" 7 5).1
      "u@x" 7 5).1 "u@x" 7 5).1 "u@x" 111111 5).2 =
      .attemptsExhausted ∧
    mget (verifyCode (verifyCode (verifyCode (verifyCode estC6 "u@x" 7
      5).1 "u@x" 7 5).1 "u@x" 7 5).1 "u@x" 111111
      5).1.verificationCodes "u@x" = none ∧
    (verifyCode (verifyCode (verifyCode (verifyCode (verifyCode estC6 "u@x"
      7 5).1 "u@x" 7 5).1 "u@x" 7 5).1 "u@x" 111111 5).1
      "u@x" 111111 5).2 = .notFound :=
  c6_amended_exhaustion estC6 "u@x" 111111 7 1000 5 5 5 5 5 (by decide)
    (by decide) (by decide) (by decide) (by decide) (by decide) (by decide)

/-- C8.  For a fresh limiter key, four issuances within the 60-minute
window: the first three succeed, the 4th fails rate-limited while the
pruned timestamps `[t1, t2, t3]` stay recorded (a failing check consumes no
slot), and a 5th issuance after the window has fully elapsed succeeds
again, leaving only its own timestamp recorded. -/
theorem c8_rate_limit_window (st : EmailState) (email : String)
    (t1 t2 t3 t4 t5 : ℤ) (r1 r2 r3 r4 r5 : ℚ) (m : Mailer)
    (hm : firstSuccess m 3 = some 1)
    (hkey : mget st.rateLimits (email ++ ":" ++ "verification") = none)
    (h12 : t1 ≤ t2) (h23 : t2 ≤ t3) (h34 : t3 ≤ t4)
    (hwin : t4 - 60 * 60 * 1000 < t1)
    (hgap : t3 + 60 * 60 * 1000 ≤ t5) :
    let s1 := (sendVerificationCode st email t1 r1 m).1
    let s2 := (sendVerificationCode s1 email t2 r2 m).1
    let s3 := (sendVerificationCode s2 email t3 r3 m).1
    let s4 := (sendVerificationCode s3 email t4 r4 m).1
    (sendVerificationCode st email t1 r1 m).2 =
      .sent (t1 + 10 * 60 * 1000) st.nextId ∧
    (sendVerificationCode s1 email t2 r2 m).2 =
      .sent (t2 + 10 * 60 * 1000) s1.nextId ∧
    (sendVerificationCode s2 email t3 r3 m).2 =
      .sent (t3 + 10 * 60 * 1000) s2.nextId ∧
    (sendVerificationCode s3 email t4 r4 m).2 = .rateLimited ∧
    mget s4.rateLimits (email ++ ":" ++ "verification") =
      some [t1, t2, t3] ∧
    (sendVerificationCode s4 email t5 r5 m).2 =
      .sent (t5 + 10 * 60 * 1000) s4.nextId ∧
    mget (sendVerificationCode s4 email t5 r5 m).1.rateLimits
      (email ++ ":" ++ "verification") = some [t5] := by
  intro s1 s2 s3 s4
  -- call 1: empty key, admitted
  have hcnt1 : ¬3 ≤ (((mget st.rateLimits
      (email ++ ":" ++ "verification")).getD []).filter
      fun t => t1 - 60 * 60 * 1000 < t).length := by
    simp [hkey]
  have E1 := sendVerificationCode_admit_ok st email t1 r1 m hm hcnt1
  have c1 : (sendVerificationCode st email t1 r1 m).2 =
      .sent (t1 + 10 * 60 * 1000) st.nextId := by rw [E1]
  have s1rl : s1.rateLimits =
      mset st.rateLimits (email ++ ":" ++ "verification") [t1] := by
    show (sendVerificationCode st email t1 r1 m).1.rateLimits = _
    rw [E1]
    simp [deliverOkState_rateLimits, setCodes_rateLimits,
      setRateLimits_rateLimits, hkey]
  -- call 2: [t1] survives pruning at t2, admitted
  have g1 : mget s1.rateLimits (email ++ ":" ++ "verification") =
      some [t1] := by rw [s1rl]; exact mget_mset_self _ _ _
  have k21 : t2 - 3600000 < t1 := by omega
  have hcnt2 : ¬3 ≤ (((mget s1.rateLimits
      (email ++ ":" ++ "verification")).getD []).filter
      fun t => t2 - 60 * 60 * 1000 < t).length := by
    simp [g1, k21]
  have E2 := sendVerificationCode_admit_ok s1 email t2 r2 m hm hcnt2
  have c2 : (sendVerificationCode s1 email t2 r2 m).2 =
      .sent (t2 + 10 * 60 * 1000) s1.nextId := by rw [E2]
  have s2rl : s2.rateLimits =
      mset s1.rateLimits (email ++ ":" ++ "verification") [t1, t2] := by
    show (sendVerificationCode s1 email t2 r2 m).1.rateLimits = _
    rw [E2]
    simp [deliverOkState_rateLimits, setCodes_rateLimits,
      setRateLimits_rateLimits, g1, k21]
  -- call 3: [t1, t2] survive pruning at t3, admitted
  have g2 : mget s2.rateLimits (email ++ ":" ++ "verification") =
      some [t1, t2] := by rw [s2rl]; exact mget_mset_self _ _ _
  have k31 : t3 - 3600000 < t1 := by omega
  have k32 : t3 - 3600000 < t2 := by omega
  have hcnt3 : ¬3 ≤ (((mget s2.rateLimits
      (email ++ ":" ++ "verification")).getD []).filter
      fun t => t3 - 60 * 60 * 1000 < t).length := by
    simp [g2, k31, k32]
  have E3 := sendVerificationCode_admit_ok s2 email t3 r3 m hm hcnt3
  have c3 : (sendVerificationCode s2 email t3 r3 m).2 =
      .sent (t3 + 10 * 60 * 1000) s2.nextId := by rw [E3]
  have s3rl : s3.rateLimits =
      mset s2.rateLimits (email ++ ":" ++ "verification") [t1, t2, t3] := by
    show (sendVerificationCode s2 email t3 r3 m).1.rateLimits = _
    rw [E3]
    simp [deliverOkState_rateLimits, setCodes_rateLimits,
      setRateLimits_rateLimits, g2, k31, k32]
  -- call 4: three pruned timestamps remain, rejected, no slot consumed
  have g3 : mget s3.rateLimits (email ++ ":" ++ "verification") =
      some [t1, t2, t3] := by rw [s3rl]; exact mget_mset_self _ _ _
  have k41 : t4 - 3600000 < t1 := by omega
  have k42 : t4 - 3600000 < t2 := by omega
  have k43 : t4 - 3600000 < t3 := by omega
  have hcnt4 : 3 ≤ (((mget s3.rateLimits
      (email ++ ":" ++ "verification")).getD []).filter
      fun t => t4 - 60 * 60 * 1000 < t).length := by
    simp [g3, k41, k42, k43]
  have E4 := sendVerificationCode_reject s3 email t4 r4 m hcnt4
  have c4 : (sendVerificationCode s3 email t4 r4 m).2 = .rateLimited := by
    rw [E4]
  have c5 : mget s4.rateLimits (email ++ ":" ++ "verification") =
      some [t1, t2, t3] := by
    show mget (sendVerificationCode s3 email t4 r4 m).1.rateLimits _ = _
    rw [E4]
    simp [setRateLimits_rateLimits, g3, k41, k42, k43, mget_mset_self]
  -- call 5: window fully elapsed, everything pruned, admitted
  have k51 : ¬t5 - 3600000 < t1 := by omega
  have k52 : ¬t5 - 3600000 < t2 := by omega
  have k53 : ¬t5 - 3600000 < t3 := by omega
  have hcnt5 : ¬3 ≤ (((mget s4.rateLimits
      (email ++ ":" ++ "verification")).getD []).filter
      fun t => t5 - 60 * 60 * 1000 < t).length := by
    simp [c5, k51, k52, k53]
  have E5 := sendVerificationCode_admit_ok s4 email t5 r5 m hm hcnt5
  have c6 : (sendVerificationCode s4 email t5 r5 m).2 =
      .sent (t5 + 10 * 60 * 1000) s4.nextId := by rw [E5]
  have c7 : mget (sendVerificationCode s4 email t5 r5 m).1.rateLimits
      (email ++ ":" ++ "verification") = some [t5] := by
    rw [E5]
    simp [deliverOkState_rateLimits, setCodes_rateLimits,
      setRateLimits_rateLimits, c5, k51, k52, k53, mget_mset_self]
  exact ⟨c1, c2, c3, c4, c5, c6, c7⟩

/-- C8, witness: a fresh service, issuances at 100, 200, 300, 400 ms and a
5th at 300 ms plus one hour. -/
theorem c8_rate_limit_window_witness :
    let s1 := (sendVerificationCode emptyEmailState "u@x" 100 0
      (fun _ => none)).1
    let s2 := (sendVerificationCode s1 "u@x" 200 0 (fun _ => none)).1
    let s3 := (sendVerificationCode s2 "u@x" 300 0 (fun _ => none)).1
    let s4 := (sendVerificationCode s3 "u@x" 400 0 (fun _ => none)).1
    (sendVerificationCode emptyEmailState "u@x" 100 0 (fun _ => none)).2 =
      .sent (100 + 10 * 60 * 1000) emptyEmailState.nextId ∧
    (sendVerificationCode s1 "u@x" 200 0 (fun _ => none)).2 =
      .sent (200 + 10 * 60 * 1000) s1.nextId ∧
    (sendVerificationCode s2 "u@x" 300 0 (fun _ => none)).2 =
      .sent (300 + 10 * 60 * 1000) s2.nextId ∧
    (sendVerificationCode s3 "u@x" 400 0 (fun _ => none)).2 =
      .rateLimited ∧
    mget s4.rateLimits ("u@x" ++ ":" ++ "verification") =
      some [100, 200, 300] ∧
    (sendVerificationCode s4 "u@x" 3600300 0 (fun _ => none)).2 =
      .sent (3600300 + 10 * 60 * 1000) s4.nextId ∧
    mget (sendVerificationCode s4 "u@x" 3600300 0
      (fun _ => none)).1.rateLimits ("u@x" ++ ":" ++ "verification") =
      some [3600300] :=
  c8_rate_limit_window emptyEmailState "u@x" 100 200 300 400 3600300 0 0 0 0
    0 (fun _ => none) (by decide) (by decide) (by decide) (by decide)
    (by decide) (by decide) (by decide)

/-- C9.  A record created by the request handler stores
`requesterEmail` / `requesteeEmail` (its `senderEmail` / `recipientEmail`
are `undefined`), so for every email the history projection is unchanged by
storing it — neither the requester's nor the requestee's history shows it —
and fetching its id yields access-denied for every requesting email,
requester and requestee included. -/
theorem c9_request_records_invisible (users : UserMap) (txns : TxnMap)
    (requesterEmail requesteeEmail : String) (amount : F64) (note : String)
    (reqId : String) (now : ℤ) (e : String) (requester : User)
    (hreq : mget users requesterEmail = some requester)
    (hver : requester.verified = true)
    (hpos : 0 < amount)
    (hne : requesteeEmail ≠ "")
    (hfresh : mget txns reqId = none) :
    (requestHandler users txns requesterEmail requesteeEmail amount note
      reqId now).2 = .ok (pendingTxn reqId requesterEmail requester.name
        requesteeEmail amount note now) ∧
    (requestHandler users txns requesterEmail requesteeEmail amount note
      reqId now).1 = mset txns reqId (pendingTxn reqId requesterEmail
        requester.name requesteeEmail amount note now) ∧
    (pendingTxn reqId requesterEmail requester.name requesteeEmail amount
      note now).senderEmail = none ∧
    (pendingTxn reqId requesterEmail requester.name requesteeEmail amount
      note now).recipientEmail = none ∧
    historyHandler (mset txns reqId (pendingTxn reqId requesterEmail
      requester.name requesteeEmail amount note now)) e =
      historyHandler txns e ∧
    getTransactionHandler (mset txns reqId (pendingTxn reqId requesterEmail
      requester.name requesteeEmail amount note now)) reqId e =
      .accessDenied := by
  have h1 : ¬(requesteeEmail = "" ∨ amount = 0) := by
    push_neg
    exact ⟨hne, ne_of_gt hpos⟩
  have h2 : ¬amount ≤ 0 := not_le.mpr hpos
  refine ⟨?_, ?_, rfl, rfl, ?_, ?_⟩
  · simp [requestHandler, h1, h2, hreq, hver, pendingTxn]
  · simp [requestHandler, h1, h2, hreq, hver, pendingTxn]
  · rw [mset_eq_append _ _ _ hfresh]
    simp [historyHandler, List.filter_append, pendingTxn]
  · simp [getTransactionHandler, mget_mset_self, pendingTxn, txnView]

/-- C9, witness: a concrete pending request from `a@x` to `c@y`, queried
as the requester `a@x` itself. -/
theorem c9_request_records_invisible_witness :
    (requestHandler usersAB [] "a@x" "c@y" dec0_20 "" "RQ-1" 0).2 =
      .ok (pendingTxn "RQ-1" "a@x" userA.name "c@y" dec0_20 "" 0) ∧
    (requestHandler usersAB [] "a@x" "c@y" dec0_20 "" "RQ-1" 0).1 =
      mset [] "RQ-1" (pendingTxn "RQ-1" "a@x" userA.name "c@y" dec0_20 ""
        0) ∧
    (pendingTxn "RQ-1" "a@x" userA.name "c@y" dec0_20 "" 0).senderEmail =
      none ∧
    (pendingTxn "RQ-1" "a@x" userA.name "c@y" dec0_20 ""
      0).recipientEmail = none ∧
    historyHandler (mset [] "RQ-1" (pendingTxn "RQ-1" "a@x" userA.name
      "c@y" dec0_20 "" 0)) "a@x" = historyHandler [] "a@x" ∧
    getTransactionHandler (mset [] "RQ-1" (pendingTxn "RQ-1" "a@x"
      userA.name "c@y" dec0_20 "" 0)) "RQ-1" "a@x" = .accessDenied :=
  c9_request_records_invisible usersAB [] "a@x" "c@y" dec0_20 "" "RQ-1" 0
    "a@x" userA (by decide) (by decide) (by decide) (by decide) (by decide)

/-- C10.  A valid registration for a fresh email stores the account
(balance 0, unverified) before the verification email is attempted; when
every delivery attempt fails, the handler reports a server error, yet the
account stays stored, the consumed rate-limit slot stays recorded, and the
freshly stored verification record stays live. -/
theorem c10_register_failure_keeps_state (users : UserMap)
    (est : EmailState) (name email phone password : String)
    (hash : String → String) (uid : String) (now : ℤ) (r : ℚ) (m : Mailer)
    (hname : name ≠ "") (hemail : email ≠ "") (hphone : phone ≠ "")
    (hpw : 8 ≤ password.length)
    (hnew : mget users email = none)
    (hfresh : mget est.rateLimits (email ++ ":" ++ "verification") = none)
    (hfail : firstSuccess m 3 = none) :
    (registerHandler users est name email phone password hash uid now r
      m).2.2 = .serverError ("Failed to send email after " ++ toString 3 ++
        " attempts: " ++ (m 3).getD "") ∧
    mget (registerHandler users est name email phone password hash uid now
      r m).1 email = some ⟨uid, name, email, phone, hash password, false,
        0, now⟩ ∧
    mget (registerHandler users est name email phone password hash uid now
      r m).2.1.rateLimits (email ++ ":" ++ "verification") = some [now] ∧
    mget (registerHandler users est name email phone password hash uid now
      r m).2.1.verificationCodes email =
      some ⟨generateVerificationCode r, now + 10 * 60 * 1000, 0⟩ := by
  have hpw' : password ≠ "" := by
    intro h
    rw [h] at hpw
    simp at hpw
  have hval : ¬(name = "" ∨ email = "" ∨ phone = "" ∨ password = "") := by
    push_neg
    exact ⟨hname, hemail, hphone, hpw'⟩
  have hh : mhas users email = false := by simp [mhas, hnew]
  have hlen : ¬password.length < 8 := not_lt.mpr hpw
  have hcnt : ¬3 ≤ (((mget est.rateLimits
      (email ++ ":" ++ "verification")).getD []).filter
      fun t => now - 60 * 60 * 1000 < t).length := by
    simp [hfresh]
  have E := sendVerificationCode_admit_fail est email now r m hfail hcnt
  refine ⟨?_, ?_, ?_, ?_⟩ <;>
    simp [registerHandler, hval, hh, hlen, E, mget_mset_self,
      deliverFailState_rateLimits, deliverFailState_verificationCodes,
      setCodes_rateLimits, setCodes_verificationCodes,
      setRateLimits_rateLimits, setRateLimits_verificationCodes, hfresh]

/-- C10, witness: a fresh registration of `u@x` with a permanently failing
transport. -/
theorem c10_register_failure_keeps_state_witness :
    (registerHandler [] emptyEmailState "N" "u@x" "1" "password1"
      (fun s => s) "uid1" 0 0 (fun _ => some "boom")).2.2 =
      .serverError ("Failed to send email after " ++ toString 3 ++
        " attempts: " ++ ((fun _ : ℕ => some "boom") 3).getD "") ∧
    mget (registerHandler [] emptyEmailState "N" "u@x" "1" "password1"
      (fun s => s) "uid1" 0 0 (fun _ => some "boom")).1 "u@x" =
      some ⟨"uid1", "N", "u@x", "1", (fun s : String => s) "password1",
        false, 0, 0⟩ ∧
    mget (registerHandler [] emptyEmailState "N" "u@x" "1" "password1"
      (fun s => s) "uid1" 0 0 (fun _ => some "boom")).2.1.rateLimits
      ("u@x" ++ ":" ++ "verification") = some [0] ∧
    mget (registerHandler [] emptyEmailState "N" "u@x" "1" "password1"
      (fun s => s) "uid1" 0 0 (fun _ => some "boom")).2.1.verificationCodes
      "u@x" = some ⟨generateVerificationCode 0, 0 + 10 * 60 * 1000, 0⟩ :=
  c10_register_failure_keeps_state [] emptyEmailState "N" "u@x" "1"
    "password1" (fun s => s) "uid1" 0 0 (fun _ => some "boom") (by decide)
    (by decide) (by decide) (by decide) (by decide) (by decide) (by decide)

end Zelle
